import Mathlib

/-!
Verification development for the SanD repository's 3MF loading pipeline.

The repository contains three code paths that read 3MF archives:

* `src/3MFLoader.js` — a `ThreeMFLoader` with XML-node parsing helpers
  (`parseMeshNode`, `parseBuildNode`, `parseModelNode`, ...), a synchronous
  `parse` entry point, and a materials/color extension.
* `src/RealViewer.tsx` — `load3MF`, the live pipeline: scans the zip for
  `3D/*.model` entries, collects all `object` nodes, resolves one level of
  component references, merges vertex/index buffers and normalizes them.
* `src/ThreeMFViewer.tsx` — a per-object loader whose final step centers and
  scales the created meshes via `position.sub(center)` / `scale.setScalar`.

The shallow embedding below models the JavaScript values involved:

* a JS number is `Option ℚ` (`none` models `NaN`; IEEE rounding is not
  modelled, arithmetic is exact),
* a DOM attribute (`Element.getAttribute`) is `Option String` (`none` models
  `null`),
* `parseInt(·, 10)` and `parseFloat` are modelled on sign + decimal digits
  (+ optional fraction and exponent for `parseFloat`); the `Infinity`
  literal and hexadecimal forms are not modelled,
* a thrown exception is `Except.error` carrying the exact message string,
  or `Option.none` for a `TypeError` on an `undefined` access.
-/

namespace SanD

/-! ### Models of JavaScript primitives -/

/-- A JavaScript number; `none` models `NaN`. -/
abbrev JSNum := Option ℚ

/-- A JavaScript number known to be produced by `parseInt`; `none` is `NaN`. -/
abbrev JSInt := Option Int

/-- Whitespace skipped by `parseInt` / `parseFloat`. -/
def jsWs (c : Char) : Bool :=
  c = ' ' || c = '\t' || c = '\n' || c = '\r'

/-- Value of a list of decimal digit characters. -/
def natOfDigits (ds : List Char) : Nat :=
  ds.foldl (fun a c => 10 * a + (c.toNat - 48)) 0

/-- Model of JavaScript `parseInt(s, 10)`: skip whitespace, optional sign,
longest digit prefix; `none` models the `NaN` result. -/
def jsParseInt (s : String) : Option Int :=
  let cs := s.data.dropWhile jsWs
  match cs with
  | '-' :: r =>
    let ds := r.takeWhile Char.isDigit
    if ds.isEmpty then none else some (-(natOfDigits ds : Int))
  | '+' :: r =>
    let ds := r.takeWhile Char.isDigit
    if ds.isEmpty then none else some ((natOfDigits ds : Int))
  | _ =>
    let ds := cs.takeWhile Char.isDigit
    if ds.isEmpty then none else some ((natOfDigits ds : Int))

/-- Exponent part of a `parseFloat` literal (after the `e`); an invalid
exponent contributes `0`, matching JS which stops before the `e`. -/
def jsExpPart (cs : List Char) : Int :=
  match cs with
  | '-' :: r =>
    let ds := r.takeWhile Char.isDigit
    if ds.isEmpty then 0 else -(natOfDigits ds : Int)
  | '+' :: r =>
    let ds := r.takeWhile Char.isDigit
    if ds.isEmpty then 0 else (natOfDigits ds : Int)
  | _ =>
    let ds := cs.takeWhile Char.isDigit
    if ds.isEmpty then 0 else (natOfDigits ds : Int)

/-- Model of JavaScript `parseFloat`: skip whitespace, optional sign, decimal
digits with optional fraction and exponent, longest valid prefix; `none`
models `NaN`. -/
def jsParseFloat (s : String) : JSNum :=
  let cs := s.data.dropWhile jsWs
  let sgn : ℚ := match cs with | '-' :: _ => -1 | _ => 1
  let cs1 : List Char := match cs with | '-' :: r => r | '+' :: r => r | _ => cs
  let ip := cs1.takeWhile Char.isDigit
  let cs2 := cs1.drop ip.length
  let fp : List Char := match cs2 with | '.' :: r => r.takeWhile Char.isDigit | _ => []
  let cs3 : List Char := match cs2 with | '.' :: r => r.drop fp.length | _ => cs2
  if ip.isEmpty ∧ fp.isEmpty then none
  else
    let mant : ℚ := (natOfDigits ip : ℚ) + (natOfDigits fp : ℚ) / ((10 : ℚ) ^ fp.length)
    let expo : Int :=
      match cs3 with
      | 'e' :: r => jsExpPart r
      | 'E' :: r => jsExpPart r
      | _ => 0
    some (sgn * mant * (10 : ℚ) ^ expo)

/-- Model of the JS idiom `a || d` on a string attribute: `null` and the
empty string are falsy. -/
def jsOrStr (a : Option String) (d : String) : String :=
  match a with
  | some s => if s = "" then d else s
  | none => d

/-- Truthiness filter on a string attribute: `if (a) { ... use a ... }`. -/
def truthyAttr (a : Option String) : Option String :=
  match a with
  | some s => if s = "" then none else some s
  | none => none

/-- Storing a `parseInt` result into a `Uint32Array` slot (`ToUint32`):
`NaN` becomes `0`, integers are taken mod `2^32`. -/
def toUint32 (v : JSInt) : Nat :=
  match v with
  | none => 0
  | some i => (i % (4294967296 : Int)).toNat

/-- `Math.min` on two JS numbers (`NaN` propagates). -/
def jsMin2 (a b : JSNum) : JSNum :=
  match a, b with
  | some x, some y => some (min x y)
  | _, _ => none

/-- `Math.max` on two JS numbers (`NaN` propagates). -/
def jsMax2 (a b : JSNum) : JSNum :=
  match a, b with
  | some x, some y => some (max x y)
  | _, _ => none

/-- Subtraction on JS numbers (`NaN` propagates). -/
def jsSub (a b : JSNum) : JSNum :=
  match a, b with
  | some x, some y => some (x - y)
  | _, _ => none

/-- Addition on JS numbers (`NaN` propagates). -/
def jsAdd (a b : JSNum) : JSNum :=
  match a, b with
  | some x, some y => some (x + y)
  | _, _ => none

/-- Multiplication of a JS number by a plain rational (`NaN` propagates). -/
def jsMulC (a : JSNum) (q : ℚ) : JSNum :=
  a.map (fun x => x * q)

/-- Halving a JS number, as in `Box3.getCenter` (`(min + max) * 0.5`). -/
def jsHalf (a : JSNum) : JSNum :=
  a.map (fun x => x / 2)

/-- The comparison `a > 0` on a JS number; false for `NaN`. -/
def jsGtZero (a : JSNum) : Bool :=
  match a with
  | some x => decide (0 < x)
  | none => false

/-- Character-list test that `p` is a prefix of `s`. -/
def charsHavePre : List Char → List Char → Bool
  | [], _ => true
  | _ :: _, [] => false
  | a :: p, b :: s => a == b && charsHavePre p s

/-- String prefix test (on the character lists). -/
def strStarts (s p : String) : Bool :=
  charsHavePre p.data s.data

/-- String suffix test (on the character lists). -/
def strEnds (s p : String) : Bool :=
  charsHavePre p.data.reverse s.data.reverse

/-- Model of JavaScript `s.split(sep)` for a one-character separator. -/
def splitChar (sep : Char) : List Char → List (List Char)
  | [] => [[]]
  | c :: r =>
    if c == sep then [] :: splitChar sep r
    else
      match splitChar sep r with
      | [] => [[c]]
      | l :: ls => (c :: l) :: ls

/-- Model of JavaScript `s.substring(0, n)`. -/
def strTake (s : String) (n : Nat) : String :=
  ⟨s.data.take n⟩

/-! ### Embedding of `src/3MFLoader.js` (`ThreeMFLoader`)

DOM nodes are modelled by structures holding exactly the attributes and
child nodes the source reads; every attribute is an `Option String`
(`getAttribute` returns the string or `null`). -/

namespace ThreeMFLoader

/-- A `vertex` element as read by `parseMeshNode` (attributes `x y z`). -/
structure VertexNode where
  x : Option String
  y : Option String
  z : Option String
deriving DecidableEq

/-- A `triangle` element as read by `parseMeshNode`
(attributes `v1 v2 v3 p1 p2 p3 pid`). -/
structure TriangleNode where
  v1 : Option String
  v2 : Option String
  v3 : Option String
  p1 : Option String := none
  p2 : Option String := none
  p3 : Option String := none
  pid : Option String := none
deriving DecidableEq

/-- A `mesh` element: its `vertices vertex` and `triangles triangle` nodes. -/
structure MeshNode where
  vertices : List VertexNode
  triangles : List TriangleNode
deriving DecidableEq

/-- One record of `meshData.triangleProperties`: a key is present (`some`)
exactly when the corresponding attribute string was truthy; the inner
`Option Int` is the stored `parseInt` result (`none` models `NaN`). -/
structure TriangleProperty where
  p1 : Option JSInt := none
  p2 : Option JSInt := none
  p3 : Option JSInt := none
  pid : Option String := none
deriving DecidableEq

/-- The `meshData` object produced by `parseMeshNode`: flat vertex buffer
(`Float32Array`), triangle-property records, flat index buffer
(`Uint32Array`), plus the `colors` buffer the materials extension may
attach later. -/
structure MeshData where
  vertices : List JSNum
  triangleProperties : List TriangleProperty
  triangles : List Nat
  colors : Option (List ℚ) := none
deriving DecidableEq

/-- Attribute read `parseFloat(node.getAttribute(a))`: a `null` attribute
parses to `NaN`. -/
def floatAttr (a : Option String) : JSNum :=
  match a with
  | some s => jsParseFloat s
  | none => none

/-- Attribute read `parseInt(node.getAttribute(a), 10)`: a `null`
attribute parses to `NaN`. -/
def intAttr (a : Option String) : JSInt :=
  match a with
  | some s => jsParseInt s
  | none => none

/-- Flat vertex buffer of `parseMeshNode`: `parseFloat` of each of the
`x`, `y`, `z` attributes in node order. -/
def meshVertexBuffer : List VertexNode → List JSNum
  | [] => []
  | v :: vs =>
    floatAttr v.x :: floatAttr v.y :: floatAttr v.z :: meshVertexBuffer vs

/-- The raw `triangles` array of `parseMeshNode`: `parseInt(v, 10)` of each
of `v1`, `v2`, `v3` in node order, before the `Uint32Array` copy. -/
def meshTriangleInts : List TriangleNode → List JSInt
  | [] => []
  | t :: ts =>
    intAttr t.v1 :: intAttr t.v2 :: intAttr t.v3 :: meshTriangleInts ts

/-- The `triangleProperty` record built for one triangle node: each `p`
key is set when the attribute is truthy, `pid` is kept as a string. -/
def triangleProp (t : TriangleNode) : TriangleProperty :=
  { p1 := (truthyAttr t.p1).map jsParseInt
    p2 := (truthyAttr t.p2).map jsParseInt
    p3 := (truthyAttr t.p3).map jsParseInt
    pid := truthyAttr t.pid }

/-- Whether a `triangleProperty` record has at least one key
(`0 < Object.keys(triangleProperty).length`). -/
def hasKeys (p : TriangleProperty) : Bool :=
  p.p1.isSome || p.p2.isSome || p.p3.isSome || p.pid.isSome

/-- The `triangleProperties` list: records with at least one key, in order. -/
def meshTriangleProps (ts : List TriangleNode) : List TriangleProperty :=
  (ts.map triangleProp).filter hasKeys

/-- Embedding of `parseMeshNode` (3MFLoader.js lines 174-242): parse all
vertex and triangle nodes; indices go through a `Uint32Array`
(`toUint32`). The function is total: the source performs no validation of
any kind, in particular no bounds check of indices against the vertex
count. -/
def parseMeshNode (m : MeshNode) : MeshData :=
  { vertices := meshVertexBuffer m.vertices
    triangleProperties := meshTriangleProps m.triangles
    triangles := (meshTriangleInts m.triangles).map toUint32 }

/-- An `item` element of the `build` node (attributes `objectid`,
`transform`). -/
structure ItemNode where
  objectid : Option String
  transform : Option String := none
deriving DecidableEq

/-- A parsed build item. The transform, when present, records the twelve
values `t[0] .. t[11]` read by `Matrix4.set` (the constant fourth column
`0 0 0 1` is not recorded); an entry is `none` when the corresponding
array slot is `undefined` (fewer than twelve tokens) or `NaN`. -/
structure BuildItem where
  objectid : Option String
  transform : Option (List JSNum) := none
deriving DecidableEq

/-- The twelve matrix entries read from a transform attribute
(3MFLoader.js lines 337-347): split on single spaces, `parseFloat` each
token, then read `t[0] .. t[11]` (out-of-range reads are `undefined`). -/
def parseTransformAttr (s : String) : List JSNum :=
  let t := (splitChar ' ' s.data).map (fun cs => jsParseFloat ⟨cs⟩)
  (List.range 12).map (fun i => (t.get? i).getD none)

/-- Embedding of `parseBuildNode` (3MFLoader.js lines 325-354): one build
item per `item` node, with the transform parsed when the attribute is
truthy. No item is ever dropped and no arity check is performed. -/
def parseBuildNode (items : List ItemNode) : List BuildItem :=
  items.map (fun it =>
    { objectid := it.objectid
      transform := (truthyAttr it.transform).map parseTransformAttr })

/-- A `metadata` element (attribute `name`, text content). -/
structure MetadataNode where
  name : Option String
  textContent : String
deriving DecidableEq

/-- The allow-list of metadata names in `parseMetadataNodes`. -/
def validNames : List String :=
  ["Title", "Designer", "Description", "Copyright", "LicenseTerms",
   "Rating", "CreationDate", "ModificationDate"]

/-- Assignment `obj[k] = v` on an association-list model of a JS object. -/
def assocSet (l : List (String × String)) (k v : String) : List (String × String) :=
  if l.any (fun p => p.1 = k) then
    l.map (fun p => if p.1 = k then (k, v) else p)
  else l ++ [(k, v)]

/-- Embedding of `parseMetadataNodes` (3MFLoader.js lines 145-168): keep
only entries whose `name` is in the allow-list
(`0 <= validNames.indexOf(name)`; a `null` name has index `-1`). -/
def parseMetadataNodes (nodes : List MetadataNode) : List (String × String) :=
  nodes.foldl (fun acc n =>
    match n.name with
    | some nm => if nm ∈ validNames then assocSet acc nm n.textContent else acc
    | none => acc) []

/-- The root `model` element as read by `parseModelNode`: its `unit`
attribute and `metadata` child nodes. (The `resources` and `build`
subtrees are parsed by `parseMeshNode` / `parseBuildNode`, embedded
above.) -/
structure ModelNode where
  unit : Option String
  metadataNodes : List MetadataNode := []
deriving DecidableEq

/-- The `modelData` fields produced by `parseModelNode` that this
development reasons about. -/
structure ModelData where
  unit : String
  metadata : List (String × String)
deriving DecidableEq

/-- Embedding of `parseModelNode` (3MFLoader.js lines 356-377), in
particular line 357: `unit: modelNode.getAttribute('unit') || 'millimeter'`.
The unit defaults to `millimeter` exactly when the attribute is `null` or
the empty string; any other value is kept verbatim, recognized or not. -/
def parseModelNode (m : ModelNode) : ModelData :=
  { unit := jsOrStr m.unit "millimeter"
    metadata := parseMetadataNodes m.metadataNodes }

/-- The message of the error thrown by the synchronous `parse` entry. -/
def syncParseMsg : String :=
  "3MF loading requires async implementation with JSZip. Please use the async load method."

/-- Embedding of the public synchronous `parse(data)` entry point
(3MFLoader.js lines 471-483). After defining its helper closures the
function body constructs a `JSZip` and then unconditionally throws; the
`catch` block logs and rethrows the same error, so no input reaches any
parsing code. The success type is `MeshData` only nominally: no value of
it is ever produced. -/
def parse (_data : List Nat) : Except String MeshData :=
  .error syncParseMsg

end ThreeMFLoader

/-! ### Embedding of `ThreeMFLoader.MaterialsAndPropertiesExtension`
(3MFLoader.js lines 492-540) -/

namespace ThreeMFLoader.MaterialsAndPropertiesExtension

/-- A `color` element inside a `colorgroup` (attribute `color`). -/
structure ColorNode where
  color : Option String
deriving DecidableEq

/-- A `colorgroup` element: its namespace prefix (`Element.prefix`,
modelled as `pfx`), its `id` attribute and its `color` children. -/
structure ColorGroupNode where
  pfx : Option String
  id : Option String
  colorNodes : List ColorNode
deriving DecidableEq

/-- A `THREE.Color`: RGB components in `[0, 1]`. -/
structure Color where
  r : ℚ
  g : ℚ
  b : ℚ
deriving DecidableEq

/-- Value of a hexadecimal digit character. -/
def hexVal (c : Char) : Option Nat :=
  if c.isDigit then some (c.toNat - 48)
  else if 'a' ≤ c ∧ c ≤ 'f' then some (c.toNat - 87)
  else if 'A' ≤ c ∧ c ≤ 'F' then some (c.toNat - 55)
  else none

/-- Whether a character is a hexadecimal digit (`[0-9a-fA-F]`). -/
def isHexDigit (c : Char) : Bool :=
  (hexVal c).isSome

/-- Model of the `THREE.Color` constructor on a style string, for the hex
literals `#rrggbb` and `#rgb`; any other style leaves the default color
`(1, 1, 1)` (named CSS colors are not modelled — the development only
applies this to hex literals). -/
def colorFromStyle (s : String) : Color :=
  match s.data with
  | ['#', c1, c2, c3, c4, c5, c6] =>
    match hexVal c1, hexVal c2, hexVal c3, hexVal c4, hexVal c5, hexVal c6 with
    | some h1, some h2, some h3, some h4, some h5, some h6 =>
      ⟨((16 * h1 + h2 : Nat) : ℚ) / 255,
       ((16 * h3 + h4 : Nat) : ℚ) / 255,
       ((16 * h5 + h6 : Nat) : ℚ) / 255⟩
    | _, _, _, _, _, _ => ⟨1, 1, 1⟩
  | ['#', c1, c2, c3] =>
    match hexVal c1, hexVal c2, hexVal c3 with
    | some h1, some h2, some h3 =>
      ⟨((17 * h1 : Nat) : ℚ) / 255, ((17 * h2 : Nat) : ℚ) / 255,
       ((17 * h3 : Nat) : ℚ) / 255⟩
    | _, _, _ => ⟨1, 1, 1⟩
  | _ => ⟨1, 1, 1⟩

/-- The unanchored test `colorStr.match(/#[0-9a-fA-F]{8}/)`: some position
holds `#` followed by eight hex digits. -/
def hasHash8Hex : List Char → Bool
  | [] => false
  | '#' :: r => ((r.take 8).length = 8 && (r.take 8).all isHexDigit) || hasHash8Hex r
  | _ :: r => hasHash8Hex r

/-- The `colorMap` built from a group's `color` children (3MFLoader.js
lines 503-515): eight-digit hex colors are truncated to `#rrggbb`
(`colorStr.substring(0, 7)`). A `null` `color` attribute makes
`colorStr.match` throw, modelled by `none`. -/
def colorMapOf : List ColorNode → Option (List Color)
  | [] => some []
  | n :: ns =>
    match n.color with
    | none => none
    | some s =>
      let c := if hasHash8Hex s.data then colorFromStyle (strTake s 7) else colorFromStyle s
      (colorMapOf ns).map (fun cs => c :: cs)

/-- The JS expression `triangle.p2 || triangle.p1` on stored property
values: an absent key (`none`), a stored `NaN` (`some none`) and a stored
`0` are all falsy. -/
def jsOrP (a b : Option JSInt) : Option JSInt :=
  match a with
  | some (some n) => if n = 0 then b else some (some n)
  | some none => b
  | none => b

/-- The indexing `colorMap[i]` where `i` is a stored property value:
`undefined`, `NaN`, negative and out-of-range subscripts all yield
`undefined` (`none`). -/
def colorAt (cm : List Color) (i : Option JSInt) : Option Color :=
  match i with
  | some (some n) => if n < 0 then none else cm.get? n.toNat
  | _ => none

/-- The strict comparison `triangle.pid === id` (an absent `pid` key is
`undefined`, a missing `id` attribute is `null`; neither equals a string
or the other). -/
def pidMatches (pid : Option String) (gid : Option String) : Bool :=
  match pid, gid with
  | some a, some b => a = b
  | _, _ => false

/-- The per-triangle color accumulation (3MFLoader.js lines 519-530): for
each property record whose `pid` matches the group id, push the three
vertex colors `colorMap[p1]`, `colorMap[p2 || p1]`, `colorMap[p3 || p1]`;
an `undefined` lookup makes the subsequent `.r` access throw (`none`). -/
def triangleColors (cm : List Color) (gid : Option String) :
    List ThreeMFLoader.TriangleProperty → Option (List ℚ)
  | [] => some []
  | t :: ts =>
    if pidMatches t.pid gid then
      match colorAt cm t.p1, colorAt cm (jsOrP t.p2 t.p1), colorAt cm (jsOrP t.p3 t.p1) with
      | some c1, some c2, some c3 =>
        (triangleColors cm gid ts).map (fun rest =>
          c1.r :: c1.g :: c1.b :: c2.r :: c2.g :: c2.b :: c3.r :: c3.g :: c3.b :: rest)
      | _, _, _ => none
    else triangleColors cm gid ts

/-- Processing of one `colorgroup` node inside `apply`: groups whose
prefix differs from the declared namespace are skipped; a matching group
builds its color map, accumulates the triangle colors and overwrites
`mesh.colors`. -/
def applyGroup (ns : String) (mesh : ThreeMFLoader.MeshData) (g : ColorGroupNode) :
    Option ThreeMFLoader.MeshData :=
  if g.pfx = some ns then
    match colorMapOf g.colorNodes with
    | none => none
    | some cm =>
      match triangleColors cm g.id mesh.triangleProperties with
      | none => none
      | some cs => some { mesh with colors := some cs }
  else some mesh

/-- Embedding of `MaterialsAndPropertiesExtension.apply` (3MFLoader.js
lines 495-539): fold over all `colorgroup` nodes of the model document;
`none` models a thrown `TypeError`. -/
def apply (groups : List ColorGroupNode) (ns : String) (mesh : ThreeMFLoader.MeshData) :
    Option ThreeMFLoader.MeshData :=
  groups.foldlM (fun m g => applyGroup ns m g) mesh

end ThreeMFLoader.MaterialsAndPropertiesExtension

/-! ### Embedding of `load3MF` from `src/RealViewer.tsx` (`ThreeMFModel`)

The zip archive is modelled as its listing: entries in archive order, each
carrying the XML-parse outcome of its text (`parseErr` models a document
with a `parsererror`, which `load3MF` skips with `continue`). `load3MF`
starts after the fetch; transport errors are outside the model. Buffers
hold exact rationals where the code holds doubles / `Float32Array`
entries. `computeVertexNormals` only adds a `normal` attribute and is not
modelled; it touches neither positions nor indices. -/

namespace RealViewer

/-- A `component` element (attribute `objectid`). -/
structure ComponentNode where
  objectid : Option String
deriving DecidableEq

/-- A `vertex` element (attributes `x y z`). -/
structure VertexNode where
  x : Option String
  y : Option String
  z : Option String
deriving DecidableEq

/-- A `triangle` element (attributes `v1 v2 v3`; this path reads no
property attributes). -/
structure TriangleNode where
  v1 : Option String
  v2 : Option String
  v3 : Option String
deriving DecidableEq

/-- A `mesh` element. -/
structure MeshNode where
  vertices : List VertexNode
  triangles : List TriangleNode
deriving DecidableEq

/-- An `object` element: its `id` attribute, its direct `mesh` child if
any, and its `components` child if any. -/
structure ObjectNode where
  id : Option String
  mesh : Option MeshNode
  components : Option (List ComponentNode) := none
deriving DecidableEq

/-- An `item` element of the document's `build` section. `load3MF` never
queries the `build` element, so this data is carried by the archive model
but never read by the pipeline. -/
structure BuildItemNode where
  objectid : Option String
  transform : Option String := none
deriving DecidableEq

/-- Outcome of `DOMParser.parseFromString` on one entry's text. The
`rels` constructor is the content of a package-relationship part: it
records the `Target` attribute of its `Relationship` element, the datum
`parseRelsXml` (3MFLoader.js lines 131-143) extracts from such a part
(`none` when the attribute is absent). `load3MF` never inspects this
content; it is carried by the archive model so that claims about `.rels`
handling can be stated. A relationship document contains no `object`
elements. -/
inductive XmlResult where
  | parseErr : XmlResult
  | rels : Option String → XmlResult
  | doc : List ObjectNode → List BuildItemNode → XmlResult
deriving DecidableEq

/-- One zip entry: its path and the XML-parse outcome of its content. -/
structure Entry where
  name : String
  content : XmlResult
deriving DecidableEq

/-- The model-part test of RealViewer.tsx line 458, a regex match against
"caret, `3D`, slash, dot-star, backslash-dot, `model`, dollar": the name
starts with `3D/`, ends with `.model`, and the dot-star does not match a
newline. -/
def isModelPath (s : String) : Bool :=
  strStarts s "3D/" && strEnds s ".model" && !(s.data.contains '\n')

/-- The relationship-part test (a name ending in `.rels`). `load3MF`
never performs this test; it exists to state claims about `.rels`
handling. -/
def isRelsPath (s : String) : Bool :=
  strEnds s ".rels"

/-- The archive-entry name a relationship target designates: the target
with its leading slash removed, per the lookup
`data3mf.model[refs['target'].substring(1)]` in `build`
(3MFLoader.js line 455). -/
def targetPartName (t : String) : String :=
  ⟨t.data.drop 1⟩

/-- Attribute read `parseFloat(node.getAttribute(a) || '0')`. -/
def attrFloatDef0 (a : Option String) : JSNum :=
  jsParseFloat (jsOrStr a "0")

/-- Attribute read `parseInt(node.getAttribute(a) || '0')`. -/
def attrIntDef0 (a : Option String) : JSInt :=
  jsParseInt (jsOrStr a "0")

/-- The per-mesh flat vertex list (RealViewer.tsx lines 574-582). -/
def vertexBuffer : List VertexNode → List JSNum
  | [] => []
  | v :: vs =>
    attrFloatDef0 v.x :: attrFloatDef0 v.y :: attrFloatDef0 v.z :: vertexBuffer vs

/-- The per-mesh flat index list with the running vertex offset added
(RealViewer.tsx lines 585-598). -/
def indexBuffer (off : Int) : List TriangleNode → List JSInt
  | [] => []
  | t :: ts =>
    (attrIntDef0 t.v1).map (fun k => k + off) ::
    (attrIntDef0 t.v2).map (fun k => k + off) ::
    (attrIntDef0 t.v3).map (fun k => k + off) ::
    indexBuffer off ts

/-- The component fallback (RealViewer.tsx lines 542-567): for each
component with a truthy `objectid`, find the first collected object with
that id; if it has a direct mesh and no mesh was selected yet, select it.
The walk is a single non-recursive pass: a referenced object's own
components are never followed. -/
def componentMeshAux (all : List ObjectNode) (acc : Option MeshNode) :
    List ComponentNode → Option MeshNode
  | [] => acc
  | c :: cs =>
    componentMeshAux all
      (match truthyAttr c.objectid with
       | none => acc
       | some oid =>
         match all.find? (fun o => o.id == some oid) with
         | none => acc
         | some ro =>
           match ro.mesh with
           | none => acc
           | some rm => match acc with | some m => some m | none => some rm) cs

/-- The `forEach` over a `components` node, starting from no selected mesh. -/
def componentMesh (all : List ObjectNode) (comps : List ComponentNode) : Option MeshNode :=
  componentMeshAux all none comps

/-- Mesh selection for one object: its direct `mesh` child, else the
single-level component fallback. -/
def resolveMeshNode (all : List ObjectNode) (o : ObjectNode) : Option MeshNode :=
  match o.mesh with
  | some m => some m
  | none =>
    match o.components with
    | some comps => componentMesh all comps
    | none => none

/-- Accumulator of the object loop: `allVertices`, `allIndices`,
`meshesFound`. -/
structure Acc where
  allVertices : List JSNum
  allIndices : List JSInt
  meshesFound : Nat
deriving DecidableEq

/-- One iteration of the object loop (RealViewer.tsx lines 528-608):
resolve a mesh, parse its buffers (the index offset is the current vertex
count), and append them when both are non-empty. -/
def processObject (all : List ObjectNode) (st : Acc) (o : ObjectNode) : Acc :=
  match resolveMeshNode all o with
  | none => st
  | some m =>
    let vs := vertexBuffer m.vertices
    let idx := indexBuffer ((st.allVertices.length / 3 : Nat) : Int) m.triangles
    if 0 < vs.length ∧ 0 < idx.length then
      { allVertices := st.allVertices ++ vs
        allIndices := st.allIndices ++ idx
        meshesFound := st.meshesFound + 1 }
    else st

/-- Object collection across all model files (RealViewer.tsx lines
470-506): files with an XML parse error are skipped, objects are
concatenated in file order. -/
def collectObjects : List Entry → List ObjectNode
  | [] => []
  | e :: es =>
    match e.content with
    | .parseErr => collectObjects es
    | .rels _ => collectObjects es
    | .doc objs _ => objs ++ collectObjects es

/-- A point of the position buffer. -/
abbrev Pt := JSNum × JSNum × JSNum

/-- Grouping of the flat vertex buffer into points (the buffer length is
always a multiple of three). -/
def triples : List JSNum → List Pt
  | x :: y :: z :: r => (x, y, z) :: triples r
  | _ => []

/-- Flattening of points back into the buffer. -/
def flat3 : List Pt → List JSNum
  | [] => []
  | p :: r => p.1 :: p.2.1 :: p.2.2 :: flat3 r

/-- `computeBoundingBox`: componentwise min/max over the position buffer;
`none` for an empty buffer (not reached: the buffer is non-empty whenever
this runs). -/
def bboxFold (ps : List Pt) : Option (Pt × Pt) :=
  ps.foldl (fun acc p =>
    match acc with
    | none => some (p, p)
    | some (mn, mx) =>
      some ((jsMin2 mn.1 p.1, jsMin2 mn.2.1 p.2.1, jsMin2 mn.2.2 p.2.2),
            (jsMax2 mx.1 p.1, jsMax2 mx.2.1 p.2.1, jsMax2 mx.2.2 p.2.2))) none

/-- The normalization pass (RealViewer.tsx lines 622-633): bounding box,
center `(min + max) / 2`, size `max - min`, `maxDim` the largest size
component, `scale = maxDim > 0 ? 2 / maxDim : 1`; then
`geometry.translate(-center)` followed by `geometry.scale(scale)`, i.e.
`v ↦ (v - center) * scale` on every vertex. -/
def normalizeVertices (vs : List JSNum) : List JSNum :=
  match bboxFold (triples vs) with
  | none => vs
  | some (mn, mx) =>
    let cx := jsHalf (jsAdd mn.1 mx.1)
    let cy := jsHalf (jsAdd mn.2.1 mx.2.1)
    let cz := jsHalf (jsAdd mn.2.2 mx.2.2)
    let sx := jsSub mx.1 mn.1
    let sy := jsSub mx.2.1 mn.2.1
    let sz := jsSub mx.2.2 mn.2.2
    let maxDim := jsMax2 (jsMax2 sx sy) sz
    let scale : ℚ := match maxDim with | some d => if 0 < d then 2 / d else 1 | none => 1
    flat3 ((triples vs).map (fun p =>
      (jsMulC (jsSub p.1 cx) scale, jsMulC (jsSub p.2.1 cy) scale,
       jsMulC (jsSub p.2.2 cz) scale)))

/-- The geometry handed to the renderer: flat position buffer and index
buffer. -/
structure Geometry where
  vertices : List JSNum
  indices : List JSInt
deriving DecidableEq

/-- Embedding of `load3MF` (RealViewer.tsx lines 438-654), from the
parsed zip listing to the final geometry or the thrown error message:
scan for `3D/*.model` entries (the `.rels` entries are never consulted),
collect all objects, run the object loop, and normalize the merged vertex
buffer. The document's build items are never read. -/
def load3MF (archive : List Entry) : Except String Geometry :=
  let modelFiles := archive.filter (fun e => isModelPath e.name)
  if modelFiles.length = 0 then .error "No 3D model file found"
  else
    let allObjectNodes := collectObjects modelFiles
    if allObjectNodes.length = 0 then .error "No objects found"
    else
      let r := allObjectNodes.foldl (processObject allObjectNodes) ⟨[], [], 0⟩
      if r.meshesFound = 0 then .error "No valid mesh data found in 3MF file"
      else .ok { vertices := normalizeVertices r.allVertices, indices := r.allIndices }

end RealViewer

/-! ### Embedding of the normalization block of `src/ThreeMFViewer.tsx`
(`ThreeMFModel`, lines 159-176)

Each created mesh is represented by its geometry's vertex positions
(exact rationals). At this point every mesh has the identity transform,
so `Box3.expandByObject` unions the geometries' bounding boxes. The block
then sets `mesh.position.sub(center)` and `mesh.scale.setScalar(scale)`;
under the three.js object transform a geometry vertex `v` is placed at
world position `position + scale • v = scale • v - center` — the
translation is applied after scaling and is itself not scaled. The
functions below return the meshes' world-space vertex positions. -/

namespace ThreeMFViewer

/-- A point in exact coordinates. -/
abbrev Vec3 := ℚ × ℚ × ℚ

/-- Componentwise bounding box of a list of points. -/
def bboxQ (ps : List Vec3) : Option (Vec3 × Vec3) :=
  ps.foldl (fun acc p =>
    match acc with
    | none => some (p, p)
    | some (mn, mx) =>
      some ((min mn.1 p.1, min mn.2.1 p.2.1, min mn.2.2 p.2.2),
            (max mx.1 p.1, max mx.2.1 p.2.1, max mx.2.2 p.2.2))) none

/-- Center of the bounding box of a list of points. -/
def bboxCenterQ (ps : List Vec3) : Option Vec3 :=
  (bboxQ ps).map (fun b =>
    ((b.1.1 + b.2.1) / 2, (b.1.2.1 + b.2.2.1) / 2, (b.1.2.2 + b.2.2.2) / 2))

/-- Embedding of ThreeMFViewer.tsx lines 159-176: shared bounding box of
all created meshes, `center = box.getCenter()`, `maxDim` the largest size
component, `scale = maxDim > 0 ? 2 / maxDim : 1`; each mesh gets
`position = -center` and `scale` as its uniform scale, so each vertex `v`
lands at world position `scale • v - center`. -/
def centerAndScaleMeshes (meshes : List (List Vec3)) : List (List Vec3) :=
  match bboxQ meshes.flatten with
  | none => meshes
  | some (mn, mx) =>
    let c : Vec3 := ((mn.1 + mx.1) / 2, (mn.2.1 + mx.2.1) / 2, (mn.2.2 + mx.2.2) / 2)
    let maxDim := max (max (mx.1 - mn.1) (mx.2.1 - mn.2.1)) (mx.2.2 - mn.2.2)
    let scale : ℚ := if 0 < maxDim then 2 / maxDim else 1
    meshes.map (fun vs => vs.map (fun v =>
      (scale * v.1 - c.1, scale * v.2.1 - c.2.1, scale * v.2.2 - c.2.2)))

end ThreeMFViewer

/-! ### Verification-side predicates and concrete inputs

The predicates below are not part of the embedded code: they state
well-formedness hypotheses about archives. The concrete archives are the
inputs of witnesses and counterexamples. -/

/-- Well-formedness of one triangle attribute with respect to a vertex
count `n`: the attribute parses (with the `|| '0'` default of the
`load3MF` path) to an integer `k` with `0 ≤ k < n`. -/
def wfAttr (n : Nat) (a : Option String) : Bool :=
  match RealViewer.attrIntDef0 a with
  | some k => decide (0 ≤ k) && decide (k < (n : Int))
  | none => false

/-- Well-formedness of a triangle node: all three vertex indices parse
and are in range for a mesh with `n` vertices. -/
def wfTri (n : Nat) (t : RealViewer.TriangleNode) : Bool :=
  wfAttr n t.v1 && wfAttr n t.v2 && wfAttr n t.v3

/-- The recognized unit names, as enumerated by the spec's data model
(`millimeter, micron, centimeter, inch, foot, meter`). This definition
follows the spec's words, not the code: the code has no such list, which
is what the unit counterexample exhibits. -/
def specRecognizedUnits : List String :=
  ["millimeter", "micron", "centimeter", "inch", "foot", "meter"]

/-- A single object holding one triangle over three vertices. -/
def singleTriObject : RealViewer.ObjectNode :=
  { id := some "1"
    mesh := some
      { vertices := [⟨some "0", some "0", some "0"⟩,
                     ⟨some "2", some "0", some "0"⟩,
                     ⟨some "0", some "1", some "0"⟩]
        triangles := [⟨some "0", some "1", some "2"⟩] }
    components := none }

/-- A well-formed single-part archive: one model entry, one object. -/
def singleTriArchive : List RealViewer.Entry :=
  [{ name := "3D/3dmodel.model", content := .doc [singleTriObject] [] }]

/-- An archive with no `.rels` entry: a non-model entry and exactly one
entry matching the `3D/*.model` pattern. -/
def scanFallbackArchive : List RealViewer.Entry :=
  [{ name := "[Content_Types].xml", content := .parseErr },
   { name := "3D/part.model", content := .doc [singleTriObject] [] }]

/-- An archive whose `.rels` entry points at a missing part: the
relationship targets `/3D/other.model`, no entry named `3D/other.model`
exists, and exactly one entry matches the `3D/*.model` pattern. -/
def relsMissingTargetArchive : List RealViewer.Entry :=
  [{ name := "_rels/.rels", content := .rels (some "/3D/other.model") },
   { name := "3D/part.model", content := .doc [singleTriObject] [] }]

/-- An archive whose object graph is a two-cycle: object `1`'s component
list references `2`, object `2`'s references `1`, and neither holds a
mesh. -/
def cyclicArchive : List RealViewer.Entry :=
  [{ name := "3D/3dmodel.model",
     content := .doc
       [{ id := some "1", mesh := none, components := some [⟨some "2"⟩] },
        { id := some "2", mesh := none, components := some [⟨some "1"⟩] }] [] }]

/-- The unit-cube mesh: 8 vertices, 12 triangles. -/
def cubeMesh : RealViewer.MeshNode :=
  { vertices :=
      [⟨some "0", some "0", some "0"⟩, ⟨some "1", some "0", some "0"⟩,
       ⟨some "1", some "1", some "0"⟩, ⟨some "0", some "1", some "0"⟩,
       ⟨some "0", some "0", some "1"⟩, ⟨some "1", some "0", some "1"⟩,
       ⟨some "1", some "1", some "1"⟩, ⟨some "0", some "1", some "1"⟩]
    triangles :=
      [⟨some "0", some "2", some "1"⟩, ⟨some "0", some "3", some "2"⟩,
       ⟨some "4", some "5", some "6"⟩, ⟨some "4", some "6", some "7"⟩,
       ⟨some "0", some "1", some "5"⟩, ⟨some "0", some "5", some "4"⟩,
       ⟨some "2", some "3", some "7"⟩, ⟨some "2", some "7", some "6"⟩,
       ⟨some "1", some "2", some "6"⟩, ⟨some "1", some "6", some "5"⟩,
       ⟨some "3", some "0", some "4"⟩, ⟨some "3", some "4", some "7"⟩] }

/-- The two-instance archive of the build-item scenario: one 8-vertex,
12-triangle cube object, and a build section instantiating it twice,
with the identity transform and with a translation of `(5, 0, 0)`. The
build items are part of the document, but `load3MF` never reads them. -/
def twoInstanceArchive : List RealViewer.Entry :=
  [{ name := "3D/3dmodel.model",
     content := .doc
       [{ id := some "1", mesh := some cubeMesh, components := none }]
       [{ objectid := some "1", transform := some "1 0 0 0 1 0 0 0 1 0 0 0" },
        { objectid := some "1", transform := some "1 0 0 0 1 0 0 0 1 5 0 0" }] }]

/-- A model node whose `unit` attribute is not a recognized unit name. -/
def parsecModelNode : ThreeMFLoader.ModelNode :=
  { unit := some "parsec", metadataNodes := [] }

/-- A build item whose transform attribute holds three numbers instead of
twelve. -/
def shortTransformItem : ThreeMFLoader.ItemNode :=
  { objectid := some "2", transform := some "1 0 0" }

/-- A mesh with one vertex and a triangle whose `v3` index is `5`,
far out of range. -/
def outOfRangeMesh : ThreeMFLoader.MeshNode :=
  { vertices := [⟨some "0", some "0", some "0"⟩]
    triangles := [{ v1 := some "0", v2 := some "0", v3 := some "5" }] }

/-- A color group with two hex colors, declared under prefix `m`. -/
def twoColorGroup : ThreeMFLoader.MaterialsAndPropertiesExtension.ColorGroupNode :=
  { pfx := some "m", id := some "1"
    colorNodes := [⟨some "#FF0000"⟩, ⟨some "#00FF00"⟩] }

/-- Mesh data holding a single triangle-property record with
`pid = "1"`, `p1 = 1` and `p2 = p3 = 0` (the attributes `p2="0"` and
`p3="0"` are present, and parse to the stored number `0`). -/
def p2ZeroMeshData : ThreeMFLoader.MeshData :=
  { vertices := []
    triangleProperties := [{ p1 := some (some 1), p2 := some (some 0),
                             p3 := some (some 0), pid := some "1" }]
    triangles := [] }

/-- One created mesh for the viewer normalization block: its bounding box
is centered at `(5, 2, 0)` with maximal dimension `4`, so the applied
scale is `1/2 ≠ 1`. -/
def skewedMeshes : List (List ThreeMFViewer.Vec3) :=
  [[(3, 0, 0), (7, 4, 0)]]

/-! ### Helper lemmas -/

theorem wfAttr_spec (n : Nat) (a : Option String) (h : wfAttr n a = true) :
    ∃ k : Nat, RealViewer.attrIntDef0 a = some (k : Int) ∧ k < n := by
  unfold wfAttr at h
  cases ha : RealViewer.attrIntDef0 a with
  | none => rw [ha] at h; exact absurd h (by simp)
  | some k =>
    rw [ha] at h
    simp only [Bool.and_eq_true, decide_eq_true_eq] at h
    refine ⟨k.toNat, ?_, ?_⟩
    · rw [Int.toNat_of_nonneg h.1]
    · have := h.2
      omega

namespace RealViewer

theorem vertexBuffer_length (vs : List VertexNode) :
    (vertexBuffer vs).length = 3 * vs.length := by
  induction vs with
  | nil => rfl
  | cons v vs ih => simp only [vertexBuffer, List.length_cons, ih]; omega

theorem indexBuffer_length (off : Int) (ts : List TriangleNode) :
    (indexBuffer off ts).length = 3 * ts.length := by
  induction ts with
  | nil => rfl
  | cons t ts ih => simp only [indexBuffer, List.length_cons, ih]; omega

theorem indexBuffer_mem (off : Int) (n : Nat) (ts : List TriangleNode)
    (hwf : ∀ t ∈ ts, wfTri n t = true) :
    ∀ j ∈ indexBuffer off ts, ∃ k : Nat, j = some ((k : Int) + off) ∧ k < n := by
  induction ts with
  | nil => intro j hj; exact absurd hj (by simp [indexBuffer])
  | cons t ts ih =>
    intro j hj
    have hwt : wfTri n t = true := hwf t (List.mem_cons_self t ts)
    have h1 : wfAttr n t.v1 = true := by
      have := hwt; unfold wfTri at this; simp only [Bool.and_eq_true] at this; exact this.1.1
    have h2 : wfAttr n t.v2 = true := by
      have := hwt; unfold wfTri at this; simp only [Bool.and_eq_true] at this; exact this.1.2
    have h3 : wfAttr n t.v3 = true := by
      have := hwt; unfold wfTri at this; simp only [Bool.and_eq_true] at this; exact this.2
    simp only [indexBuffer, List.mem_cons] at hj
    rcases hj with hj | hj | hj | hj
    · obtain ⟨k, hk, hkn⟩ := wfAttr_spec n t.v1 h1
      exact ⟨k, by rw [hj, hk]; rfl, hkn⟩
    · obtain ⟨k, hk, hkn⟩ := wfAttr_spec n t.v2 h2
      exact ⟨k, by rw [hj, hk]; rfl, hkn⟩
    · obtain ⟨k, hk, hkn⟩ := wfAttr_spec n t.v3 h3
      exact ⟨k, by rw [hj, hk]; rfl, hkn⟩
    · exact ih (fun t' ht' => hwf t' (List.mem_cons_of_mem t ht')) j hj

theorem processObject_found_le (all : List ObjectNode) (st : Acc) (o : ObjectNode) :
    st.meshesFound ≤ (processObject all st o).meshesFound := by
  unfold processObject
  cases resolveMeshNode all o with
  | none => exact le_refl _
  | some m =>
    dsimp only
    split
    · exact Nat.le_succ _
    · exact le_refl _

theorem foldl_found_le (all : List ObjectNode) (os : List ObjectNode) (st : Acc) :
    st.meshesFound ≤ (os.foldl (processObject all) st).meshesFound := by
  induction os generalizing st with
  | nil => exact le_refl _
  | cons o os ih =>
    exact le_trans (processObject_found_le all st o) (ih (processObject all st o))

theorem foldl_found_pos (all : List ObjectNode) (os : List ObjectNode) (st : Acc)
    (o : ObjectNode) (m : MeshNode) (ho : o ∈ os)
    (hres : resolveMeshNode all o = some m)
    (hv : m.vertices ≠ []) (ht : m.triangles ≠ []) :
    0 < (os.foldl (processObject all) st).meshesFound := by
  induction os generalizing st with
  | nil => exact absurd ho (List.not_mem_nil o)
  | cons o' os ih =>
    rcases List.mem_cons.mp ho with h | h
    · subst h
      have hstep : 0 < (processObject all st o).meshesFound := by
        unfold processObject
        rw [hres]
        dsimp only
        rw [if_pos]
        · exact Nat.succ_pos _
        · constructor
          · rw [vertexBuffer_length]
            have := List.length_pos.mpr hv
            omega
          · rw [indexBuffer_length]
            have := List.length_pos.mpr ht
            omega
      calc 0 < (processObject all st o).meshesFound := hstep
        _ ≤ _ := foldl_found_le all os (processObject all st o)
    · exact ih (processObject all st o') h

theorem componentMeshAux_nomesh (all : List ObjectNode)
    (hall : ∀ o ∈ all, o.mesh = none) :
    ∀ (comps : List ComponentNode) (acc : Option MeshNode),
      componentMeshAux all acc comps = acc := by
  intro comps
  induction comps with
  | nil => intro acc; rfl
  | cons c cs ih =>
    intro acc
    unfold componentMeshAux
    have hstep :
        (match truthyAttr c.objectid with
         | none => acc
         | some oid =>
           match all.find? (fun o => o.id == some oid) with
           | none => acc
           | some ro =>
             match ro.mesh with
             | none => acc
             | some rm => match acc with | some m => some m | none => some rm) = acc := by
      cases truthyAttr c.objectid with
      | none => rfl
      | some oid =>
        dsimp only
        cases hfind : all.find? (fun o => o.id == some oid) with
        | none => rfl
        | some ro =>
          have hro : ro ∈ all := List.mem_of_find?_eq_some hfind
          dsimp only
          rw [hall ro hro]
    rw [hstep, ih acc]

theorem resolveMeshNode_nomesh (all : List ObjectNode)
    (hall : ∀ o ∈ all, o.mesh = none) (o : ObjectNode) (ho : o ∈ all) :
    resolveMeshNode all o = none := by
  unfold resolveMeshNode
  rw [hall o ho]
  cases o.components with
  | none => rfl
  | some comps => exact componentMeshAux_nomesh all hall comps none

theorem foldl_nochange (all : List ObjectNode) (os : List ObjectNode)
    (hall : ∀ o ∈ all, o.mesh = none) (hos : ∀ o ∈ os, o ∈ all) (st : Acc) :
    os.foldl (processObject all) st = st := by
  induction os generalizing st with
  | nil => rfl
  | cons o os ih =>
    have hstep : processObject all st o = st := by
      unfold processObject
      rw [resolveMeshNode_nomesh all hall o (hos o (List.mem_cons_self o os))]
    rw [List.foldl_cons, hstep]
    exact ih (fun o' ho' => hos o' (List.mem_cons_of_mem o ho')) st

end RealViewer

namespace ThreeMFLoader

theorem meshTriangleInts_length (ts : List TriangleNode) :
    (meshTriangleInts ts).length = 3 * ts.length := by
  induction ts with
  | nil => rfl
  | cons t ts ih => simp only [meshTriangleInts, List.length_cons, ih]; omega

theorem meshTriangleInts_mem_v3 (t : TriangleNode) (ts : List TriangleNode)
    (ht : t ∈ ts) : intAttr t.v3 ∈ meshTriangleInts ts := by
  induction ts with
  | nil => exact absurd ht (List.not_mem_nil t)
  | cons t' ts ih =>
    rcases List.mem_cons.mp ht with h | h
    · subst h
      simp [meshTriangleInts]
    · simp only [meshTriangleInts, List.mem_cons]
      exact Or.inr (Or.inr (Or.inr (ih h)))

end ThreeMFLoader

/-! ### Claim theorems -/

/-- C9: the synchronous public entry point `parse` never returns geometry:
for every input byte buffer it throws the fixed error before reaching any
parsing code. -/
theorem parse_always_throws (data : List Nat) :
    ThreeMFLoader.parse data =
      .error "3MF loading requires async implementation with JSZip. Please use the async load method." :=
  rfl

/-- C6 counterexample: the unrecognized unit value `parsec` is kept
verbatim by `parseModelNode` instead of defaulting to `millimeter` as the
claim requires (`parsec` is not among the spec's recognized unit names). -/
theorem parseModelNode_unit_counterexample :
    (ThreeMFLoader.parseModelNode parsecModelNode).unit = "parsec" ∧
    "parsec" ∉ specRecognizedUnits ∧ "parsec" ≠ "millimeter" :=
  ⟨rfl, by decide, by decide⟩

/-- C6 (amended): parsing the unit attribute never fails; the parsed unit
is `millimeter` exactly when the attribute is absent or the empty string,
and otherwise is the attribute's value verbatim, whether or not it is a
recognized unit name. -/
theorem parseModelNode_unit_amended (m : ThreeMFLoader.ModelNode) :
    ((m.unit = none ∨ m.unit = some "") →
      (ThreeMFLoader.parseModelNode m).unit = "millimeter") ∧
    (∀ s, m.unit = some s → s ≠ "" → (ThreeMFLoader.parseModelNode m).unit = s) := by
  constructor
  · rintro (h | h) <;> simp [ThreeMFLoader.parseModelNode, jsOrStr, h]
  · intro s hs hne
    simp [ThreeMFLoader.parseModelNode, jsOrStr, hs, hne]

/-- C6 amended witness: a missing unit defaults to `millimeter`, and the
value `inch` is kept. -/
theorem parseModelNode_unit_amended_witness :
    (ThreeMFLoader.parseModelNode { unit := none, metadataNodes := [] }).unit = "millimeter" ∧
    (ThreeMFLoader.parseModelNode { unit := some "inch", metadataNodes := [] }).unit = "inch" :=
  ⟨(parseModelNode_unit_amended { unit := none, metadataNodes := [] }).1 (Or.inl rfl),
   (parseModelNode_unit_amended { unit := some "inch", metadataNodes := [] }).2 "inch" rfl
     (by decide)⟩

/-- C7 counterexample: a transform attribute with three numbers is not a
fatal error and the owning build item is not dropped: `parseBuildNode`
keeps the item, with the nine missing matrix entries `undefined`. -/
theorem parseBuildNode_short_transform_counterexample :
    ThreeMFLoader.parseBuildNode [shortTransformItem] =
      [{ objectid := some "2",
         transform := some [some 1, some 0, some 0, none, none, none,
                            none, none, none, none, none, none] }] := by
  have e1 : jsParseFloat ⟨['1']⟩ = some 1 := by
    rw [show jsParseFloat ⟨['1']⟩ =
      some ((1 : ℚ) * (((1 : Nat) : ℚ) + ((0 : Nat) : ℚ) / (10 : ℚ) ^ (0 : Nat)) *
        (10 : ℚ) ^ (0 : Int)) from rfl]
    norm_num
  have e0 : jsParseFloat ⟨['0']⟩ = some 0 := by
    rw [show jsParseFloat ⟨['0']⟩ =
      some ((1 : ℚ) * (((0 : Nat) : ℚ) + ((0 : Nat) : ℚ) / (10 : ℚ) ^ (0 : Nat)) *
        (10 : ℚ) ^ (0 : Int)) from rfl]
    norm_num
  have hsplit : ThreeMFLoader.parseBuildNode [shortTransformItem] =
      [{ objectid := some "2",
         transform := some [jsParseFloat ⟨['1']⟩, jsParseFloat ⟨['0']⟩, jsParseFloat ⟨['0']⟩,
                            none, none, none, none, none, none, none, none, none] }] := rfl
  rw [hsplit, e1, e0]

/-- C7 (amended): `parseBuildNode` performs no arity validation on
transform attributes: no item is ever dropped (the output has one build
item per item node), and a transform with fewer than twelve
space-separated tokens yields `undefined` matrix entries at the missing
positions. -/
theorem parseBuildNode_no_arity_check :
    (∀ items, (ThreeMFLoader.parseBuildNode items).length = items.length) ∧
    (∀ (s : String) (i : Nat), i < 12 → (splitChar ' ' s.data).length ≤ i →
      (ThreeMFLoader.parseTransformAttr s).get? i = some none) := by
  constructor
  · intro items
    simp [ThreeMFLoader.parseBuildNode]
  · intro s i hi hlen
    simp only [ThreeMFLoader.parseTransformAttr]
    rw [List.get?_map, List.get?_range hi]
    simp only [Option.map_some']
    congr 1
    rw [List.get?_eq_none.mpr (by rw [List.length_map]; exact hlen)]
    rfl

/-- C7 amended witness: the three-number transform keeps its item and has
`undefined` at entry 3. -/
theorem parseBuildNode_no_arity_check_witness :
    (ThreeMFLoader.parseBuildNode [shortTransformItem]).length = [shortTransformItem].length ∧
    (ThreeMFLoader.parseTransformAttr "1 0 0").get? 3 = some none :=
  ⟨parseBuildNode_no_arity_check.1 [shortTransformItem],
   parseBuildNode_no_arity_check.2 "1 0 0" 3 (by decide) (by decide)⟩

/-- C8 counterexample: a mesh with one vertex and a triangle referencing
vertex `5` parses without any error; the out-of-range index is stored in
the triangle buffer. -/
theorem parseMeshNode_out_of_range_counterexample :
    (ThreeMFLoader.parseMeshNode outOfRangeMesh).triangles = [0, 0, 5] ∧
    outOfRangeMesh.vertices.length = 1 :=
  ⟨rfl, rfl⟩

/-- C8 (amended): `parseMeshNode` performs no bounds check: for every
mesh node and triangle in it whose `v3` attribute parses to an index `k`
below `2^32`, the parse succeeds with `k` stored in the triangle buffer —
also when `k` is at or beyond the vertex count — and no triangle is
dropped. -/
theorem parseMeshNode_no_bounds_check (m : ThreeMFLoader.MeshNode)
    (t : ThreeMFLoader.TriangleNode) (k : Nat)
    (ht : t ∈ m.triangles)
    (hk : ThreeMFLoader.intAttr t.v3 = some (k : Int))
    (hk32 : k < 4294967296)
    (hoob : m.vertices.length ≤ k) :
    k ∈ (ThreeMFLoader.parseMeshNode m).triangles ∧
    (ThreeMFLoader.parseMeshNode m).triangles.length = 3 * m.triangles.length := by
  constructor
  · have hmem := ThreeMFLoader.meshTriangleInts_mem_v3 t m.triangles ht
    rw [hk] at hmem
    have hto : toUint32 (some (k : Int)) = k := by
      show ((k : Int) % 4294967296).toNat = k
      rw [Int.emod_eq_of_lt (Int.natCast_nonneg k) (by exact_mod_cast hk32)]
      exact Int.toNat_natCast k
    have : toUint32 (some (k : Int)) ∈ (ThreeMFLoader.meshTriangleInts m.triangles).map toUint32 :=
      List.mem_map_of_mem toUint32 hmem
    rw [hto] at this
    exact this
  · simp [ThreeMFLoader.parseMeshNode, ThreeMFLoader.meshTriangleInts_length]

/-- C8 amended witness: the out-of-range index `5` of the concrete mesh
is retained and all three index slots are kept. -/
theorem parseMeshNode_no_bounds_check_witness :
    5 ∈ (ThreeMFLoader.parseMeshNode outOfRangeMesh).triangles ∧
    (ThreeMFLoader.parseMeshNode outOfRangeMesh).triangles.length =
      3 * outOfRangeMesh.triangles.length :=
  parseMeshNode_no_bounds_check outOfRangeMesh
    { v1 := some "0", v2 := some "0", v3 := some "5" } 5
    (by decide) (by decide) (by decide) (by decide)

/-- C2 counterexample: on the two-object cyclic archive, `load3MF`
terminates and fails, but with the generic no-valid-mesh message — no
`ReferenceCycle` error exists anywhere in the code. -/
theorem load3MF_cycle_counterexample :
    RealViewer.load3MF cyclicArchive = .error "No valid mesh data found in 3MF file" ∧
    "No valid mesh data found in 3MF file" ≠ "ReferenceCycle" :=
  ⟨rfl, by decide⟩

/-- C2 (amended): on any archive with at least one model part and at
least one object where no object holds a direct mesh — which covers every
purely cyclic component graph, since component resolution is a bounded
single-level lookup and never recurses — `load3MF` terminates and fails
with the generic error `No valid mesh data found in 3MF file` (there is
no `ReferenceCycle` error). -/
theorem load3MF_cycle_amended (archive : List RealViewer.Entry)
    (hmf : archive.filter (fun e => RealViewer.isModelPath e.name) ≠ [])
    (hobj : RealViewer.collectObjects
      (archive.filter (fun e => RealViewer.isModelPath e.name)) ≠ [])
    (hnomesh : ∀ o ∈ RealViewer.collectObjects
      (archive.filter (fun e => RealViewer.isModelPath e.name)), o.mesh = none) :
    RealViewer.load3MF archive = .error "No valid mesh data found in 3MF file" := by
  simp only [RealViewer.load3MF]
  rw [if_neg (fun h => hmf (List.length_eq_zero.mp h))]
  rw [if_neg (fun h => hobj (List.length_eq_zero.mp h))]
  rw [RealViewer.foldl_nochange _ _ hnomesh (fun o ho => ho) ⟨[], [], 0⟩]
  rw [if_pos rfl]

/-- C2 amended witness: the cyclic archive satisfies the hypotheses and
produces the generic error. -/
theorem load3MF_cycle_amended_witness :
    RealViewer.load3MF cyclicArchive = .error "No valid mesh data found in 3MF file" :=
  load3MF_cycle_amended cyclicArchive (by decide) (by decide) (by decide)

/-- C1: for every well-formed single-part archive whose single object
holds a mesh with `N` vertex nodes and `M` triangle nodes (well-formed:
non-empty mesh, every index attribute parsing to a value `< N`), the
build succeeds and the output index buffer has exactly `3 * M` entries,
each a number strictly below `N`. -/
theorem load3MF_single_object_index_buffer
    (archive : List RealViewer.Entry) (e : RealViewer.Entry)
    (o : RealViewer.ObjectNode) (m : RealViewer.MeshNode)
    (bitems : List RealViewer.BuildItemNode)
    (hfilter : archive.filter (fun x => RealViewer.isModelPath x.name) = [e])
    (hdoc : e.content = .doc [o] bitems)
    (hmesh : o.mesh = some m)
    (hv : m.vertices ≠ []) (ht : m.triangles ≠ [])
    (hwf : ∀ t ∈ m.triangles, wfTri m.vertices.length t = true) :
    ∃ g, RealViewer.load3MF archive = .ok g ∧
      g.indices.length = 3 * m.triangles.length ∧
      ∀ j ∈ g.indices, ∃ k : Nat, j = some (k : Int) ∧ k < m.vertices.length := by
  have hco : RealViewer.collectObjects [e] = [o] := by
    simp [RealViewer.collectObjects, hdoc]
  have hres : RealViewer.resolveMeshNode [o] o = some m := by
    unfold RealViewer.resolveMeshNode
    rw [hmesh]
  simp only [RealViewer.load3MF, hfilter, hco]
  rw [if_neg (by simp)]
  rw [if_neg (by simp)]
  simp only [List.foldl_cons, List.foldl_nil, RealViewer.processObject, hres]
  have hc1 : 0 < (RealViewer.vertexBuffer m.vertices).length ∧
      0 < (RealViewer.indexBuffer ((((([] : List JSNum).length) / 3 : Nat) : Int))
            m.triangles).length := by
    constructor
    · rw [RealViewer.vertexBuffer_length]
      have := List.length_pos.mpr hv
      omega
    · rw [RealViewer.indexBuffer_length]
      have := List.length_pos.mpr ht
      omega
  rw [if_pos hc1]
  rw [if_neg (by simp)]
  refine ⟨_, rfl, ?_, ?_⟩
  · simp only [List.nil_append]
    exact RealViewer.indexBuffer_length _ _
  · intro j hj
    simp only [List.nil_append] at hj
    have hoff : ((((⟨[], [], 0⟩ : RealViewer.Acc).allVertices.length / 3 : Nat) : Int)) = 0 := rfl
    rw [hoff] at hj
    obtain ⟨k, hk, hkn⟩ := RealViewer.indexBuffer_mem 0 m.vertices.length m.triangles hwf j hj
    exact ⟨k, by rw [hk, add_zero], hkn⟩

/-- C1 witness: the single-triangle archive satisfies the hypotheses; its
index buffer has three entries below the vertex count. -/
theorem load3MF_single_object_index_buffer_witness :
    ∃ g, RealViewer.load3MF singleTriArchive = .ok g ∧
      g.indices.length = 3 * 1 ∧
      ∀ j ∈ g.indices, ∃ k : Nat, j = some (k : Int) ∧ k < 3 :=
  load3MF_single_object_index_buffer singleTriArchive
    { name := "3D/3dmodel.model", content := .doc [singleTriObject] [] }
    singleTriObject
    { vertices := [⟨some "0", some "0", some "0"⟩,
                   ⟨some "2", some "0", some "0"⟩,
                   ⟨some "0", some "1", some "0"⟩]
      triangles := [⟨some "0", some "1", some "2"⟩] }
    [] (by decide) rfl rfl (by decide) (by decide) (by decide)

/-- C3: for every archive in which either no entry's name ends in
`.rels`, or some `.rels` entry's relationship targets a part missing
from the archive, every entry matching the model-part pattern (directory
`3D/`, any depth, suffix `.model`) is treated as a model part, and when
exactly one entry matches and it holds an object with a non-empty mesh,
`load3MF` succeeds. The condition `hrels` is the claim's trigger; the
scan is in fact unconditional — `load3MF` never consults `.rels` entries
at all, as its definition shows — which is why `hrels` is not needed by
the proof. -/
theorem load3MF_scan_fallback_success
    (archive : List RealViewer.Entry) (e : RealViewer.Entry)
    (objs : List RealViewer.ObjectNode) (bitems : List RealViewer.BuildItemNode)
    (o : RealViewer.ObjectNode) (m : RealViewer.MeshNode)
    (hrels : (∀ x ∈ archive, RealViewer.isRelsPath x.name = false) ∨
      (∃ r ∈ archive, RealViewer.isRelsPath r.name = true ∧
        ∃ t, r.content = .rels (some t) ∧
          ∀ x ∈ archive, x.name ≠ RealViewer.targetPartName t))
    (hfilter : archive.filter (fun x => RealViewer.isModelPath x.name) = [e])
    (hdoc : e.content = .doc objs bitems)
    (ho : o ∈ objs) (hmesh : o.mesh = some m)
    (hv : m.vertices ≠ []) (ht : m.triangles ≠ []) :
    ∃ g, RealViewer.load3MF archive = .ok g := by
  have hco : RealViewer.collectObjects [e] = objs := by
    simp [RealViewer.collectObjects, hdoc]
  have hres : RealViewer.resolveMeshNode objs o = some m := by
    unfold RealViewer.resolveMeshNode
    rw [hmesh]
  simp only [RealViewer.load3MF, hfilter, hco]
  rw [if_neg (by simp)]
  rw [if_neg (fun h =>
    (List.length_pos.mpr (List.ne_nil_of_mem ho)).ne' h)]
  have hpos := RealViewer.foldl_found_pos objs objs ⟨[], [], 0⟩ o m ho hres hv ht
  rw [if_neg (Nat.pos_iff_ne_zero.mp hpos)]
  exact ⟨_, rfl⟩

/-- C3 witness, one concrete archive per trigger case: an archive with
no `.rels` entry at all, and an archive whose `.rels` entry targets the
missing part `/3D/other.model`; each has exactly one `3D/*.model` entry
holding a valid mesh, and each loads successfully. -/
theorem load3MF_scan_fallback_success_witness :
    (∃ g, RealViewer.load3MF scanFallbackArchive = .ok g) ∧
    (∃ g, RealViewer.load3MF relsMissingTargetArchive = .ok g) :=
  ⟨load3MF_scan_fallback_success scanFallbackArchive
    { name := "3D/part.model", content := .doc [singleTriObject] [] }
    [singleTriObject] [] singleTriObject
    { vertices := [⟨some "0", some "0", some "0"⟩,
                   ⟨some "2", some "0", some "0"⟩,
                   ⟨some "0", some "1", some "0"⟩]
      triangles := [⟨some "0", some "1", some "2"⟩] }
    (Or.inl (by decide)) (by decide) rfl (by decide) rfl (by decide) (by decide),
   load3MF_scan_fallback_success relsMissingTargetArchive
    { name := "3D/part.model", content := .doc [singleTriObject] [] }
    [singleTriObject] [] singleTriObject
    { vertices := [⟨some "0", some "0", some "0"⟩,
                   ⟨some "2", some "0", some "0"⟩,
                   ⟨some "0", some "1", some "0"⟩]
      triangles := [⟨some "0", some "1", some "2"⟩] }
    (Or.inr ⟨{ name := "_rels/.rels", content := .rels (some "/3D/other.model") },
      by decide, by decide, "/3D/other.model", rfl, by decide⟩)
    (by decide) rfl (by decide) rfl (by decide) (by decide)⟩

/-- C5: on the archive whose build section instantiates the 8-vertex,
12-triangle cube object twice (with translations `(0,0,0)` and
`(5,0,0)`), `load3MF` emits the object once — 24 position floats (8
vertices) and 36 indices (12 triangles) — not the 48 and 72 the two
instances would give: the build items and their transforms are never
read. -/
theorem load3MF_ignores_build_items_eval :
    (RealViewer.load3MF twoInstanceArchive).map
        (fun g => (g.vertices.length, g.indices.length)) = .ok (24, 36) ∧
    ((24 : Nat), (36 : Nat)) ≠ ((48 : Nat), (72 : Nat)) :=
  ⟨rfl, by decide⟩

namespace ThreeMFLoader.MaterialsAndPropertiesExtension

theorem triangleColors_nonmatching (cm : List Color) (gid : Option String)
    (ps qs : List ThreeMFLoader.TriangleProperty)
    (hps : ∀ p ∈ ps, pidMatches p.pid gid = false) :
    triangleColors cm gid (ps ++ qs) = triangleColors cm gid qs := by
  induction ps with
  | nil => rfl
  | cons p ps ih =>
    rw [List.cons_append]
    have hp : pidMatches p.pid gid = false := hps p (List.mem_cons_self p ps)
    simp only [triangleColors, hp]
    exact ih (fun p' hp' => hps p' (List.mem_cons_of_mem p hp'))

end ThreeMFLoader.MaterialsAndPropertiesExtension

/-- C10: in the materials extension, the fallback of `p2`/`p3` to `p1`
is triggered by falsiness, not absence: for every mesh whose
triangle-property list holds (after any non-matching records) a record
with matching `pid`, `p1 = i` and the `p2`, `p3` keys present with
stored value `0`, the second and third vertex slots receive the color at
index `p1` (not the color at index `0`). -/
theorem materials_p2_zero_falls_back
    (g : ThreeMFLoader.MaterialsAndPropertiesExtension.ColorGroupNode)
    (ns gid : String) (mesh : ThreeMFLoader.MeshData)
    (ps qs : List ThreeMFLoader.TriangleProperty)
    (t : ThreeMFLoader.TriangleProperty)
    (cm : List ThreeMFLoader.MaterialsAndPropertiesExtension.Color)
    (i : Nat) (c : ThreeMFLoader.MaterialsAndPropertiesExtension.Color) (rest : List ℚ)
    (hpfx : g.pfx = some ns)
    (hcm : ThreeMFLoader.MaterialsAndPropertiesExtension.colorMapOf g.colorNodes = some cm)
    (hid : g.id = some gid)
    (hprops : mesh.triangleProperties = ps ++ t :: qs)
    (hps : ∀ p ∈ ps,
      ThreeMFLoader.MaterialsAndPropertiesExtension.pidMatches p.pid (some gid) = false)
    (hpid : t.pid = some gid)
    (hp1 : t.p1 = some (some (i : Int)))
    (hp2 : t.p2 = some (some 0))
    (hp3 : t.p3 = some (some 0))
    (hc : cm.get? i = some c)
    (hrest : ThreeMFLoader.MaterialsAndPropertiesExtension.triangleColors cm (some gid) qs =
      some rest) :
    ThreeMFLoader.MaterialsAndPropertiesExtension.apply [g] ns mesh =
      some { mesh with colors := some (c.r :: c.g :: c.b :: c.r :: c.g :: c.b ::
        c.r :: c.g :: c.b :: rest) } := by
  have hmatch : ThreeMFLoader.MaterialsAndPropertiesExtension.pidMatches t.pid (some gid) = true := by
    rw [hpid]
    simp [ThreeMFLoader.MaterialsAndPropertiesExtension.pidMatches]
  have hAtI : ThreeMFLoader.MaterialsAndPropertiesExtension.colorAt cm (some (some (i : Int))) =
      some c := by
    show (if (i : Int) < 0 then none else cm.get? (i : Int).toNat) = some c
    rw [if_neg (Int.not_lt.mpr (Int.natCast_nonneg i)), Int.toNat_natCast]
    exact hc
  have hAt1 : ThreeMFLoader.MaterialsAndPropertiesExtension.colorAt cm t.p1 = some c := by
    rw [hp1]; exact hAtI
  have hOr2 : ThreeMFLoader.MaterialsAndPropertiesExtension.jsOrP t.p2 t.p1 =
      some (some (i : Int)) := by
    rw [hp2, hp1]
    show (if (0 : Int) = 0 then some (some (i : Int)) else some (some (0 : Int))) = _
    rw [if_pos rfl]
  have hOr3 : ThreeMFLoader.MaterialsAndPropertiesExtension.jsOrP t.p3 t.p1 =
      some (some (i : Int)) := by
    rw [hp3, hp1]
    show (if (0 : Int) = 0 then some (some (i : Int)) else some (some (0 : Int))) = _
    rw [if_pos rfl]
  have htc : ThreeMFLoader.MaterialsAndPropertiesExtension.triangleColors cm (some gid)
      (t :: qs) = some
        (c.r :: c.g :: c.b :: c.r :: c.g :: c.b :: c.r :: c.g :: c.b :: rest) := by
    simp only [ThreeMFLoader.MaterialsAndPropertiesExtension.triangleColors, hmatch, if_true,
      hAt1, hOr2, hOr3, hAtI, hrest, Option.map_some']
  have happly : ThreeMFLoader.MaterialsAndPropertiesExtension.applyGroup ns mesh g =
      some { mesh with colors := some (c.r :: c.g :: c.b :: c.r :: c.g :: c.b ::
        c.r :: c.g :: c.b :: rest) } := by
    unfold ThreeMFLoader.MaterialsAndPropertiesExtension.applyGroup
    rw [if_pos hpfx, hcm]
    dsimp only
    rw [hid, hprops,
      ThreeMFLoader.MaterialsAndPropertiesExtension.triangleColors_nonmatching cm (some gid)
        ps (t :: qs) hps, htc]
  calc ThreeMFLoader.MaterialsAndPropertiesExtension.apply [g] ns mesh
      = (ThreeMFLoader.MaterialsAndPropertiesExtension.applyGroup ns mesh g).bind
          (fun x => some x) := rfl
    _ = _ := by rw [happly]; rfl

/-- C10 witness: with a two-color group (`#FF0000`, `#00FF00`) and a
triangle record `pid="1", p1=1, p2=0, p3=0`, all three vertex slots get
the color at index 1 (green), not the color at index 0. -/
theorem materials_p2_zero_falls_back_witness :
    ThreeMFLoader.MaterialsAndPropertiesExtension.apply [twoColorGroup] "m" p2ZeroMeshData =
      some { p2ZeroMeshData with colors := some (
         (ThreeMFLoader.MaterialsAndPropertiesExtension.colorFromStyle "#00FF00").r ::
         (ThreeMFLoader.MaterialsAndPropertiesExtension.colorFromStyle "#00FF00").g ::
         (ThreeMFLoader.MaterialsAndPropertiesExtension.colorFromStyle "#00FF00").b ::
         (ThreeMFLoader.MaterialsAndPropertiesExtension.colorFromStyle "#00FF00").r ::
         (ThreeMFLoader.MaterialsAndPropertiesExtension.colorFromStyle "#00FF00").g ::
         (ThreeMFLoader.MaterialsAndPropertiesExtension.colorFromStyle "#00FF00").b ::
         (ThreeMFLoader.MaterialsAndPropertiesExtension.colorFromStyle "#00FF00").r ::
         (ThreeMFLoader.MaterialsAndPropertiesExtension.colorFromStyle "#00FF00").g ::
         (ThreeMFLoader.MaterialsAndPropertiesExtension.colorFromStyle "#00FF00").b :: []) } :=
  materials_p2_zero_falls_back twoColorGroup "m" "1" p2ZeroMeshData [] []
    { p1 := some (some 1), p2 := some (some 0), p3 := some (some 0), pid := some "1" }
    [ThreeMFLoader.MaterialsAndPropertiesExtension.colorFromStyle "#FF0000",
     ThreeMFLoader.MaterialsAndPropertiesExtension.colorFromStyle "#00FF00"]
    1 (ThreeMFLoader.MaterialsAndPropertiesExtension.colorFromStyle "#00FF00") []
    rfl rfl rfl rfl (by intro p hp; exact absurd hp (List.not_mem_nil p))
    rfl rfl rfl rfl rfl rfl

/-- C4: the normalization of `ThreeMFViewer.tsx` does not center the
output at the origin: the translation `position.sub(center)` is applied
after (and not scaled by) `scale.setScalar(scale)`, so on a mesh with
bounding-box center `(5, 2, 0)` and scale `1/2` the final bounding-box
center is `(-5/2, -1, 0)`, not the origin. -/
theorem viewer_normalize_not_centered :
    ThreeMFViewer.bboxCenterQ (ThreeMFViewer.centerAndScaleMeshes skewedMeshes).flatten =
      some (-(5/2 : ℚ), (-1 : ℚ), (0 : ℚ)) ∧
    ((-(5/2 : ℚ), (-1 : ℚ), (0 : ℚ)) : ThreeMFViewer.Vec3) ≠ ((0 : ℚ), (0 : ℚ), (0 : ℚ)) := by
  constructor
  · norm_num [skewedMeshes, ThreeMFViewer.centerAndScaleMeshes, ThreeMFViewer.bboxQ,
      ThreeMFViewer.bboxCenterQ, List.flatten, min_def, max_def]
  · intro h
    rw [Prod.mk.injEq, Prod.mk.injEq] at h
    norm_num at h

end SanD
